import Mathlib

/-!
# Verification of the Zendesk ticket auto-tagging pipeline

Shallow embedding of the content-analysis and tag-application pipeline
(`ContentAnalyzer` in `src/services/contentAnalyzer.ts` and `AutoTagger`
in the auto-tagger module).  Numbers are modelled as rationals, strings
as Lean `String`, JavaScript `String.prototype.includes` as a substring
scan over the character list.  The theorems at the end settle the frozen
claims about the pipeline.
-/

namespace Zendesk

/-- Predicate `headMatch needle hay`: does `needle` occur at the very start of `hay`?
Models the anchored comparison step of `String.prototype.includes`. -/
def headMatch : List Char → List Char → Bool
  | [], _ => true
  | _ :: _, [] => false
  | a :: as, b :: bs => a == b && headMatch as bs

/-- Predicate `occursAt needle hay`: does `needle` occur contiguously anywhere in
`hay`?  Models `hay.includes(needle)` on character lists. -/
def occursAt (needle : List Char) : List Char → Bool
  | [] => needle.isEmpty
  | c :: t => headMatch needle (c :: t) || occursAt needle t

/-- Function `includes text kw` models the JavaScript call `text.includes(kw)`. -/
def includes (text kw : String) : Bool :=
  occursAt kw.data text.data

/-! ## Rule tables (constructor of `ContentAnalyzer`) -/

/-- The category keyword table, in `Object.entries` insertion order:
`(label, keywords, weight)`. -/
def categoryKeywords : List (String × List String × Nat) :=
  [ ("technical",
     ["bug", "error", "crash", "broken", "not working", "malfunction",
      "technical issue", "system down", "outage", "server", "api",
      "integration", "database", "connection", "timeout", "performance",
      "slow loading", "loading time", "latency", "500 error", "404 error"], 2),
    ("billing",
     ["billing", "payment", "invoice", "charge", "refund", "subscription",
      "credit card", "transaction", "receipt", "price", "cost", "fee",
      "upgrade", "downgrade", "plan", "pricing", "discount", "promo code"], 2),
    ("account",
     ["account", "login", "password", "forgot password", "reset password",
      "username", "profile", "settings", "security", "two-factor",
      "verification", "email change", "phone number", "personal information"], 2),
    ("feature_request",
     ["feature request", "new feature", "enhancement", "suggestion",
      "improvement", "would like", "wish", "could you add", "missing",
      "please add", "request", "enhancement"], 2),
    ("support",
     ["help", "question", "how to", "tutorial", "guide", "documentation",
      "instructions", "explain", "clarification", "confused", "understand"], 1),
    ("sales",
     ["sales", "demo", "trial", "purchase", "buy", "quote", "pricing",
      "enterprise", "business plan", "custom plan", "consultation",
      "pre-sales", "product information"], 2) ]

/-- The four priority levels of the domain. -/
inductive PriorityLevel where
  | urgent | high | normal | low
  deriving DecidableEq, Repr

/-- Keywords of the `urgent` priority tier (weight 3). -/
def urgentKeywords : List String :=
  ["urgent", "emergency", "critical", "asap", "immediately", "down",
   "broken", "not working", "production", "live site", "revenue impact",
   "security breach", "data loss", "urgent help needed"]

/-- Keywords of the `high` priority tier (weight 2). -/
def highKeywords : List String :=
  ["important", "priority", "business impact", "customer facing",
   "deadline", "time sensitive", "blocking", "major issue"]

/-- Keywords of the `low` priority tier (weight 1). -/
def lowKeywords : List String :=
  ["when you have time", "no rush", "minor", "cosmetic", "nice to have",
   "suggestion", "feedback", "general question"]

/-- Negative sentiment keyword list. -/
def negativeKeywords : List String :=
  ["frustrated", "angry", "disappointed", "terrible", "awful", "horrible",
   "worst", "hate", "useless", "broken", "fed up", "unacceptable",
   "ridiculous", "pathetic", "disgusted"]

/-- Positive sentiment keyword list. -/
def positiveKeywords : List String :=
  ["great", "excellent", "amazing", "wonderful", "fantastic", "love",
   "perfect", "awesome", "brilliant", "outstanding", "impressed",
   "satisfied", "happy", "pleased"]

/-- The product keyword table, in insertion order: `(label, keywords)`. -/
def productKeywords : List (String × List String) :=
  [ ("mobile", ["mobile", "app", "ios", "android", "phone", "smartphone", "tablet"]),
    ("web", ["website", "browser", "chrome", "firefox", "safari", "edge", "web app"]),
    ("api", ["api", "endpoint", "webhook", "integration", "developer", "sdk"]),
    ("desktop", ["desktop", "windows", "mac", "macos", "linux", "software", "application"]) ]

/-! ## Analysis data model (`src/types/index.ts`) -/

/-- One entry of the category analysis result. -/
structure CategoryAnalysis where
  category : String
  score : Nat
  matchedKeywords : List String
  confidence : ℚ
  deriving DecidableEq, Repr

/-- The priority analysis result. -/
structure PriorityAnalysis where
  level : PriorityLevel
  score : Nat
  matchedKeywords : List String
  confidence : ℚ
  deriving DecidableEq, Repr

/-- The three sentiment labels. -/
inductive SentimentLabel where
  | positive | negative | neutral
  deriving DecidableEq, Repr

/-- The sentiment analysis result. -/
structure SentimentAnalysis where
  sentiment : SentimentLabel
  score : Nat
  positiveWords : List String
  negativeWords : List String
  confidence : ℚ
  deriving DecidableEq, Repr

/-- One entry of the product analysis result. -/
structure ProductAnalysis where
  product : String
  matchedKeywords : List String
  confidence : ℚ
  deriving DecidableEq, Repr

/-- The aggregate analysis of one ticket. -/
structure TicketAnalysis where
  ticketId : Nat
  categories : List CategoryAnalysis
  priority : PriorityAnalysis
  sentiment : SentimentAnalysis
  products : List ProductAnalysis
  suggestedTags : List String
  confidence : ℚ
  deriving DecidableEq, Repr

/-! ## The content analyzer (`ContentAnalyzer`) -/

/-- Inner loop of `categorizeContent`: accumulate `(score, matchedKeywords)`
over one category's keyword list (`score += weight` per matching keyword). -/
def categoryScan (text : String) (w : Nat) (kws : List String) : Nat × List String :=
  kws.foldl (fun acc kw =>
    if includes text kw then (acc.1 + w, acc.2 ++ [kw]) else acc) (0, [])

/-- Stable descending insertion by raw score, modelling the JavaScript
stable `sort((a, b) => b.score - a.score)`. -/
def insertByScore (c : CategoryAnalysis) : List CategoryAnalysis → List CategoryAnalysis
  | [] => [c]
  | d :: ds => if d.score ≤ c.score then c :: d :: ds else d :: insertByScore c ds

/-- Stable insertion sort by descending raw score. -/
def sortByScore : List CategoryAnalysis → List CategoryAnalysis
  | [] => []
  | c :: cs => insertByScore c (sortByScore cs)

/-- Model of `ContentAnalyzer.categorizeContent`: score every category, keep the ones
with a strictly positive score and sort them by descending score. -/
def categorizeContent (text : String) : List CategoryAnalysis :=
  sortByScore (categoryKeywords.filterMap (fun entry =>
    let s := categoryScan text entry.2.2 entry.2.1
    if 0 < s.1 then
      some ⟨entry.1, s.1, s.2, min ((s.1 : ℚ) / 5) 1⟩
    else none))

/-- Mutable state of the `analyzePriority` loop. -/
structure PriorityAcc where
  level : PriorityLevel
  score : Nat
  matched : List String
  deriving DecidableEq, Repr

/-- Inner loop of `analyzePriority` for one tier `(lvl, w, kws)`: every
matching keyword is recorded, and the tracked level/score are replaced
when this tier's weight beats the tracked score. -/
def tierScan (text : String) (lvl : PriorityLevel) (w : Nat) (kws : List String)
    (acc : PriorityAcc) : PriorityAcc :=
  kws.foldl (fun a kw =>
    if includes text kw then
      if a.score < w then ⟨lvl, w, a.matched ++ [kw]⟩
      else { a with matched := a.matched ++ [kw] }
    else a) acc

/-- Model of `ContentAnalyzer.analyzePriority`: scan the three tiers in table order
(urgent 3, high 2, low 1) starting from `(normal, 0, [])`. -/
def analyzePriority (text : String) : PriorityAnalysis :=
  let acc := tierScan text .low 1 lowKeywords
    (tierScan text .high 2 highKeywords
      (tierScan text .urgent 3 urgentKeywords ⟨.normal, 0, []⟩))
  ⟨acc.level, acc.score, acc.matched,
   if 0 < acc.score then min ((acc.score : ℚ) / 3) 1 else 1 / 2⟩

/-- Counting loop of `analyzeSentiment` over one word list: each list word
that occurs in the text counts exactly once. -/
def sentimentScan (text : String) (kws : List String) : Nat × List String :=
  kws.foldl (fun acc kw =>
    if includes text kw then (acc.1 + 1, acc.2 ++ [kw]) else acc) (0, [])

/-- Model of `ContentAnalyzer.analyzeSentiment`. -/
def analyzeSentiment (text : String) : SentimentAnalysis :=
  let p := sentimentScan text positiveKeywords
  let n := sentimentScan text negativeKeywords
  let label : SentimentLabel :=
    if p.1 < n.1 then .negative else if n.1 < p.1 then .positive else .neutral
  let score : Nat :=
    if p.1 < n.1 then n.1 - p.1 else if n.1 < p.1 then p.1 - n.1 else 0
  ⟨label, score, p.2, n.2, min (((p.1 + n.1 : Nat) : ℚ) / 3) 1⟩

/-- Stable descending insertion by confidence, modelling the stable
`sort((a, b) => b.confidence - a.confidence)`. -/
def insertByConfidence (c : ProductAnalysis) : List ProductAnalysis → List ProductAnalysis
  | [] => [c]
  | d :: ds => if d.confidence ≤ c.confidence then c :: d :: ds else d :: insertByConfidence c ds

/-- Stable insertion sort by descending confidence. -/
def sortByConfidence : List ProductAnalysis → List ProductAnalysis
  | [] => []
  | c :: cs => insertByConfidence c (sortByConfidence cs)

/-- Model of `ContentAnalyzer.analyzeProducts`. -/
def analyzeProducts (text : String) : List ProductAnalysis :=
  sortByConfidence (productKeywords.filterMap (fun entry =>
    let matched := entry.2.filter (fun kw => includes text kw)
    if matched ≠ [] then
      some ⟨entry.1, matched, min ((matched.length : ℚ) / (entry.2.length : ℚ)) 1⟩
    else none))

/-- Rendering of a priority level inside a `priority-<level>` tag. -/
def PriorityLevel.label : PriorityLevel → String
  | .urgent => "urgent"
  | .high => "high"
  | .normal => "normal"
  | .low => "low"

/-- Rendering of a sentiment label inside a `sentiment-<label>` tag. -/
def SentimentLabel.label : SentimentLabel → String
  | .positive => "positive"
  | .negative => "negative"
  | .neutral => "neutral"

/-- The `switch` table of `generateTags`: the fixed secondary tag attached
to a high-confidence category, when it has one. -/
def secondaryTag (category : String) : Option String :=
  if category = "technical" then some "needs-technical-review"
  else if category = "billing" then some "billing-inquiry"
  else if category = "feature_request" then some "feature-request"
  else if category = "account" then some "account-management"
  else none

/-- De-duplication keeping the first occurrence of each element, modelling
the JavaScript `[...new Set(tags)]` (insertion-ordered set). -/
def dedupFirst : List String → List String
  | [] => []
  | a :: l => a :: dedupFirst (l.filter (fun b => b ≠ a))
termination_by l => l.length
decreasing_by
  simp only [List.length_cons]
  exact Nat.lt_succ_of_le (List.length_filter_le _ _)

/-- Model of `ContentAnalyzer.generateTags`: the marker tag, then the four gated
dimension tags, then the secondary tags of every high-confidence
category, de-duplicated. -/
def generateTags (a : TicketAnalysis) : List String :=
  let tags := ["auto-processed"]
  let tags := tags ++ (match a.categories with
    | [] => []
    | top :: _ => if (3 : ℚ) / 10 < top.confidence then ["category-" ++ top.category] else [])
  let tags := tags ++ (if a.priority.level ≠ .normal ∧ (1 : ℚ) / 2 < a.priority.confidence
    then ["priority-" ++ a.priority.level.label] else [])
  let tags := tags ++ (if a.sentiment.sentiment ≠ .neutral ∧ (2 : ℚ) / 5 < a.sentiment.confidence
    then ["sentiment-" ++ a.sentiment.sentiment.label] else [])
  let tags := tags ++ (match a.products with
    | [] => []
    | top :: _ => if (3 : ℚ) / 10 < top.confidence then ["product-" ++ top.product] else [])
  let tags := tags ++ a.categories.filterMap (fun c =>
    if (3 : ℚ) / 5 < c.confidence then secondaryTag c.category else none)
  dedupFirst tags

/-- Model of `ContentAnalyzer.calculateConfidence`: the category factor enters the
mean only when at least one category matched, so the divisor is 4 with a
category and 3 without one. -/
def calculateConfidence (a : TicketAnalysis) (text : String) : ℚ :=
  let lengthFactor : ℚ := min ((text.length : ℚ) / 500) 1
  if a.categories.isEmpty then
    (a.priority.confidence + a.sentiment.confidence + lengthFactor) / 3
  else
    (((a.categories.head?.map fun c => c.confidence).getD 0)
      + a.priority.confidence + a.sentiment.confidence + lengthFactor) / 4

/-- Body of `ContentAnalyzer.analyzeTicket` applied to the lower-cased
effective text: run the four dimension analyses, then fill in the
suggested tags and the overall confidence. -/
def analyzeText (text : String) : TicketAnalysis :=
  let base : TicketAnalysis :=
    ⟨0, categorizeContent text, analyzePriority text, analyzeSentiment text,
     analyzeProducts text, [], 0⟩
  let tagged := { base with suggestedTags := generateTags base }
  { tagged with confidence := calculateConfidence tagged text }

/-! ## Tickets and `analyzeTicket` -/

/-- The ticket fields the pipeline reads.  Absent optional fields are the
empty string, matching the falsy treatment in the source. -/
structure ZendeskTicket where
  id : Nat
  subject : String
  description : String
  fullText : String
  tags : List String
  deriving DecidableEq, Repr

/-- Model of `ticket.fullText || ticket.description || ticket.subject`:
the first non-empty of the three text fields. -/
def effectiveText (t : ZendeskTicket) : String :=
  if t.fullText ≠ "" then t.fullText
  else if t.description ≠ "" then t.description
  else t.subject

/-- ASCII lower-casing of a string, modelling `.toLowerCase()`. -/
def lowerStr (s : String) : String :=
  ⟨s.data.map Char.toLower⟩

/-- Model of `ContentAnalyzer.analyzeTicket`: analyze the lower-cased effective text
and stamp the ticket id. -/
def analyzeTicket (t : ZendeskTicket) : TicketAnalysis :=
  { analyzeText (lowerStr (effectiveText t)) with ticketId := t.id }

/-! ## The auto tagger (`AutoTagger`) -/

/-- The configuration fields `AutoTagger` reads. -/
structure AutomationConfig where
  minConfidence : ℚ
  dryRun : Bool
  deriving DecidableEq, Repr

/-- Outcome status of one tagging attempt. -/
inductive TagStatus where
  | success | error | skipped | dryRun
  deriving DecidableEq, Repr

/-- Structured rendering of the `reason` strings produced by `applyTags`. -/
inductive TagReason where
  | belowThreshold (confidence threshold : ℚ)
  | noNewTags
  | dryRunWould (count : Nat)
  | failed (message : String)
  deriving DecidableEq, Repr

/-- The per-ticket outcome record (`TaggingResult`). -/
structure TaggingResult where
  ticketId : Nat
  status : TagStatus
  confidence : ℚ
  tags : Option (List String)
  reason : Option TagReason
  deriving DecidableEq, Repr

/-- The injected remote-write collaborator: `updateTicket(id, { tags })`,
which may fail with a message. -/
abbrev Client : Type :=
  Nat → List String → Except String Unit

/-- A record of one issued remote tag write: `(ticketId, newTags)`. -/
abbrev RemoteWrite : Type :=
  Nat × List String

/-- Does the string trim to nothing (empty or whitespace-only)?  Models
`tag.trim().length === 0`, which also covers the falsy `!tag` check. -/
def isBlank (s : String) : Bool :=
  s.data.all (fun c => c == ' ' || c == '\t' || c == '\n' || c == '\r')

/-- Model of `AutoTagger.filterTags`: drop suggested tags already on the ticket and
blank (empty or whitespace-only) tags. -/
def filterTags (suggestedTags currentTags : List String) : List String :=
  suggestedTags.filter (fun tag =>
    if currentTags.contains tag then false
    else if isBlank tag then false
    else true)

/-- Model of `AutoTagger.applyTags`, returning the `TaggingResult` together with the
list of remote writes it issued. -/
def applyTags (cfg : AutomationConfig) (client : Client)
    (ticket : ZendeskTicket) (analysis : TicketAnalysis) :
    TaggingResult × List RemoteWrite :=
  if analysis.confidence < cfg.minConfidence then
    (⟨ticket.id, .skipped, analysis.confidence, none,
      some (.belowThreshold analysis.confidence cfg.minConfidence)⟩, [])
  else
    let tagsToApply := filterTags analysis.suggestedTags ticket.tags
    if tagsToApply.isEmpty then
      (⟨ticket.id, .skipped, analysis.confidence, some analysis.suggestedTags,
        some .noNewTags⟩, [])
    else
      let newTags := dedupFirst (ticket.tags ++ tagsToApply)
      if cfg.dryRun then
        (⟨ticket.id, .dryRun, analysis.confidence, some tagsToApply,
          some (.dryRunWould tagsToApply.length)⟩, [])
      else
        match client ticket.id newTags with
        | .ok _ =>
          (⟨ticket.id, .success, analysis.confidence, some tagsToApply, none⟩,
           [(ticket.id, newTags)])
        | .error e =>
          (⟨ticket.id, .error, analysis.confidence, none, some (.failed e)⟩,
           [(ticket.id, newTags)])

/-- The batch summary record (`BatchTaggingResults`). -/
structure BatchTaggingResults where
  total : Nat
  success : Nat
  skipped : Nat
  errors : Nat
  details : List TaggingResult
  deriving DecidableEq, Repr

/-- The ticket lookup map built by `batchApplyTags`: `Map.set` makes the
last ticket with a given id win. -/
def lookupTicket (tickets : List ZendeskTicket) (id : Nat) : Option ZendeskTicket :=
  tickets.foldl (fun acc t => if t.id = id then some t else acc) none

/-- Loop state of `batchApplyTags`:
`(successCount, skipCount, errorCount, details, issued writes)`. -/
structure BatchAcc where
  success : Nat
  skipped : Nat
  errors : Nat
  details : List TaggingResult
  writes : List RemoteWrite
  deriving DecidableEq, Repr

/-- One iteration of the `batchApplyTags` loop: a lookup miss only bumps the
error counter; otherwise the `applyTags` outcome is appended and counted. -/
def batchStep (cfg : AutomationConfig) (client : Client)
    (tickets : List ZendeskTicket) (acc : BatchAcc) (analysis : TicketAnalysis) :
    BatchAcc :=
  match lookupTicket tickets analysis.ticketId with
  | none => { acc with errors := acc.errors + 1 }
  | some ticket =>
    let r := applyTags cfg client ticket analysis
    { success := if r.1.status = .success then acc.success + 1 else acc.success,
      skipped := if r.1.status = .skipped ∨ r.1.status = .dryRun
        then acc.skipped + 1 else acc.skipped,
      errors := if r.1.status = .success ∨ r.1.status = .skipped ∨ r.1.status = .dryRun
        then acc.errors else acc.errors + 1,
      details := acc.details ++ [r.1],
      writes := acc.writes ++ r.2 }

/-- Model of `AutoTagger.batchApplyTags`, returning the batch summary together with
every remote write issued during the batch. -/
def batchApplyTags (cfg : AutomationConfig) (client : Client)
    (analysisResults : List TicketAnalysis) (tickets : List ZendeskTicket) :
    BatchTaggingResults × List RemoteWrite :=
  let acc := analysisResults.foldl (batchStep cfg client tickets) ⟨0, 0, 0, [], []⟩
  (⟨analysisResults.length, acc.success, acc.skipped, acc.errors, acc.details⟩,
   acc.writes)

/-! ## Helper notions used in the statements -/

/-- The sublist of `kws` whose elements occur in `text`. -/
def matchedIn (text : String) (kws : List String) : List String :=
  kws.filter (fun kw => includes text kw)

/-- Does at least one keyword of `kws` occur in `text`? -/
def anyMatch (text : String) (kws : List String) : Bool :=
  kws.any (fun kw => includes text kw)

/-- Every keyword of every dimension's rule table. -/
def ruleKeywords : List String :=
  categoryKeywords.flatMap (fun e => e.2.1)
    ++ urgentKeywords ++ highKeywords ++ lowKeywords
    ++ positiveKeywords ++ negativeKeywords
    ++ productKeywords.flatMap (fun e => e.2)

/-! ## Scan lemmas -/

lemma sentimentScan_go (text : String) (kws : List String) :
    ∀ (c : Nat) (ws : List String),
      kws.foldl (fun acc kw =>
          if includes text kw then (acc.1 + 1, acc.2 ++ [kw]) else acc) (c, ws)
        = (c + (matchedIn text kws).length, ws ++ matchedIn text kws) := by
  induction kws with
  | nil => intro c ws; simp [matchedIn]
  | cons kw rest ih =>
    intro c ws
    cases h : includes text kw with
    | true => simp [matchedIn, List.filter_cons, h, ih, Nat.add_comm, Nat.add_assoc]
    | false => simp [matchedIn, List.filter_cons, h, ih]

lemma sentimentScan_eq (text : String) (kws : List String) :
    sentimentScan text kws = ((matchedIn text kws).length, matchedIn text kws) := by
  simpa using sentimentScan_go text kws 0 []

/-- Full characterization of `analyzeSentiment` in terms of the matched
positive and negative word lists. -/
lemma analyzeSentiment_core (text : String) :
    (analyzeSentiment text).sentiment
      = (if (matchedIn text positiveKeywords).length < (matchedIn text negativeKeywords).length
          then SentimentLabel.negative
         else if (matchedIn text negativeKeywords).length < (matchedIn text positiveKeywords).length
          then SentimentLabel.positive
         else SentimentLabel.neutral)
    ∧ ((analyzeSentiment text).score : ℤ)
      = |((matchedIn text positiveKeywords).length : ℤ)
          - ((matchedIn text negativeKeywords).length : ℤ)|
    ∧ (analyzeSentiment text).confidence
      = min ((((matchedIn text positiveKeywords).length
               + (matchedIn text negativeKeywords).length : Nat) : ℚ) / 3) 1
    ∧ (analyzeSentiment text).positiveWords = matchedIn text positiveKeywords
    ∧ (analyzeSentiment text).negativeWords = matchedIn text negativeKeywords := by
  have hp := sentimentScan_eq text positiveKeywords
  have hn := sentimentScan_eq text negativeKeywords
  simp only [analyzeSentiment, hp, hn]
  refine ⟨trivial, ?_, trivial, trivial, trivial⟩
  rcases Nat.lt_trichotomy (matchedIn text positiveKeywords).length
    (matchedIn text negativeKeywords).length with h | h | h
  · rw [if_pos h, abs_of_nonpos (by omega), Nat.cast_sub h.le]
    ring
  · rw [if_neg (by omega), if_neg (by omega), h]
    simp
  · rw [if_neg (by omega), if_pos h, abs_of_nonneg (by omega),
      Nat.cast_sub h.le]

/-- C8: `analyzeSentiment` counts, once each, the positive-list and
negative-list terms occurring in the text; the label compares the two
counts, the score is their absolute difference, and the confidence is
`min((positive + negative) / 3, 1)`. -/
theorem analyzeSentiment_spec (text : String) :
    (analyzeSentiment text).sentiment
      = (if (matchedIn text positiveKeywords).length < (matchedIn text negativeKeywords).length
          then SentimentLabel.negative
         else if (matchedIn text negativeKeywords).length < (matchedIn text positiveKeywords).length
          then SentimentLabel.positive
         else SentimentLabel.neutral)
    ∧ ((analyzeSentiment text).score : ℤ)
      = |((matchedIn text positiveKeywords).length : ℤ)
          - ((matchedIn text negativeKeywords).length : ℤ)|
    ∧ (analyzeSentiment text).confidence
      = min ((((matchedIn text positiveKeywords).length
               + (matchedIn text negativeKeywords).length : Nat) : ℚ) / 3) 1
    ∧ (analyzeSentiment text).positiveWords = matchedIn text positiveKeywords
    ∧ (analyzeSentiment text).negativeWords = matchedIn text negativeKeywords :=
  analyzeSentiment_core text

/-! ## Priority-scan lemmas (towards C3 and C4) -/

lemma tierScan_of_le (text : String) (lvl : PriorityLevel) (w : Nat) (kws : List String) :
    ∀ acc : PriorityAcc, w ≤ acc.score →
      tierScan text lvl w kws acc
        = { acc with matched := acc.matched ++ matchedIn text kws } := by
  induction kws with
  | nil => intro acc _; simp [tierScan, matchedIn]
  | cons kw rest ih =>
    intro acc h
    cases hkw : includes text kw with
    | true =>
      have hlt : ¬ acc.score < w := by omega
      simp only [tierScan, List.foldl_cons, hkw, if_true, if_neg hlt]
      rw [show (rest.foldl _ _ : PriorityAcc) = tierScan text lvl w rest
        { acc with matched := acc.matched ++ [kw] } from rfl]
      rw [ih { acc with matched := acc.matched ++ [kw] } h]
      simp [matchedIn, List.filter_cons, hkw]
    | false =>
      simp only [tierScan, List.foldl_cons, hkw, Bool.false_eq_true, if_false]
      rw [show (rest.foldl _ _ : PriorityAcc) = tierScan text lvl w rest acc from rfl]
      rw [ih acc h]
      simp [matchedIn, List.filter_cons, hkw]

lemma tierScan_of_lt (text : String) (lvl : PriorityLevel) (w : Nat) (kws : List String) :
    ∀ acc : PriorityAcc, acc.score < w →
      tierScan text lvl w kws acc
        = ⟨if anyMatch text kws then lvl else acc.level,
           if anyMatch text kws then w else acc.score,
           acc.matched ++ matchedIn text kws⟩ := by
  induction kws with
  | nil => intro acc _; simp [tierScan, matchedIn, anyMatch]
  | cons kw rest ih =>
    intro acc h
    cases hkw : includes text kw with
    | true =>
      simp only [tierScan, List.foldl_cons, hkw, if_true, if_pos h]
      rw [show (rest.foldl _ _ : PriorityAcc) = tierScan text lvl w rest
        ⟨lvl, w, acc.matched ++ [kw]⟩ from rfl]
      rw [tierScan_of_le text lvl w rest ⟨lvl, w, acc.matched ++ [kw]⟩ (le_refl w)]
      simp [matchedIn, anyMatch, List.filter_cons, List.any_cons, hkw]
    | false =>
      simp only [tierScan, List.foldl_cons, hkw, Bool.false_eq_true, if_false]
      rw [show (rest.foldl _ _ : PriorityAcc) = tierScan text lvl w rest acc from rfl]
      rw [ih acc h]
      simp [matchedIn, anyMatch, List.filter_cons, List.any_cons, hkw]

lemma anyMatch_append (text : String) (a b : List String) :
    anyMatch text (a ++ b) = (anyMatch text a || anyMatch text b) := by
  simp [anyMatch]

lemma matchedIn_append (text : String) (a b : List String) :
    matchedIn text (a ++ b) = matchedIn text a ++ matchedIn text b := by
  simp [matchedIn]

/-- Full characterization of `analyzePriority` in terms of which tiers
have an occurring keyword. -/
lemma analyzePriority_core (text : String) :
    (analyzePriority text).level
      = (if anyMatch text urgentKeywords then PriorityLevel.urgent
         else if anyMatch text highKeywords then PriorityLevel.high
         else if anyMatch text lowKeywords then PriorityLevel.low
         else PriorityLevel.normal)
    ∧ (analyzePriority text).score
      = (if anyMatch text urgentKeywords then 3
         else if anyMatch text highKeywords then 2
         else if anyMatch text lowKeywords then 1
         else 0)
    ∧ (analyzePriority text).confidence
      = (if anyMatch text (urgentKeywords ++ highKeywords ++ lowKeywords)
         then min (((analyzePriority text).score : ℚ) / 3) 1
         else 1 / 2)
    ∧ (analyzePriority text).matchedKeywords
      = matchedIn text (urgentKeywords ++ highKeywords ++ lowKeywords) := by
  have e1 := tierScan_of_lt text .urgent 3 urgentKeywords ⟨.normal, 0, []⟩ (by norm_num)
  cases hu : anyMatch text urgentKeywords with
  | true =>
    simp only [hu, if_true, List.nil_append] at e1
    have e2 := tierScan_of_le text .high 2 highKeywords
      ⟨.urgent, 3, matchedIn text urgentKeywords⟩ (by norm_num)
    have e3 := tierScan_of_le text .low 1 lowKeywords
      ⟨.urgent, 3, matchedIn text urgentKeywords ++ matchedIn text highKeywords⟩ (by norm_num)
    simp only [analyzePriority, e1, e2, e3]
    refine ⟨by simp [hu], by simp [hu], ?_, by simp [matchedIn_append, List.append_assoc]⟩
    simp [hu, anyMatch_append, analyzePriority, e1, e2, e3]
  | false =>
    simp only [hu, Bool.false_eq_true, if_false, List.nil_append] at e1
    have e2 := tierScan_of_lt text .high 2 highKeywords
      ⟨.normal, 0, matchedIn text urgentKeywords⟩ (by norm_num)
    cases hh : anyMatch text highKeywords with
    | true =>
      simp only [hh, if_true] at e2
      have e3 := tierScan_of_le text .low 1 lowKeywords
        ⟨.high, 2, matchedIn text urgentKeywords ++ matchedIn text highKeywords⟩ (by norm_num)
      simp only [analyzePriority, e1, e2, e3]
      refine ⟨by simp [hu, hh], by simp [hu, hh], ?_,
        by simp [matchedIn_append, List.append_assoc]⟩
      simp [hu, hh, anyMatch_append, analyzePriority, e1, e2, e3]
    | false =>
      simp only [hh, Bool.false_eq_true, if_false] at e2
      have e3 := tierScan_of_lt text .low 1 lowKeywords
        ⟨.normal, 0, matchedIn text urgentKeywords ++ matchedIn text highKeywords⟩ (by norm_num)
      cases hl : anyMatch text lowKeywords with
      | true =>
        simp only [hl, if_true] at e3
        simp only [analyzePriority, e1, e2, e3]
        refine ⟨by simp [hu, hh, hl], by simp [hu, hh, hl], ?_,
          by simp [matchedIn_append, List.append_assoc]⟩
        simp [hu, hh, hl, anyMatch_append, analyzePriority, e1, e2, e3]
      | false =>
        simp only [hl, Bool.false_eq_true, if_false] at e3
        simp only [analyzePriority, e1, e2, e3]
        refine ⟨by simp [hu, hh, hl], by simp [hu, hh, hl], ?_,
          by simp [matchedIn_append, List.append_assoc]⟩
        simp [hu, hh, hl, anyMatch_append, analyzePriority, e1, e2, e3]


/-- C3: `analyzePriority` returns the level of the highest-weight tier with
at least one occurring keyword (`normal` when none); its score is that
tier's weight; its confidence is `min(weight / 3, 1)` when some keyword
matched and exactly `0.5` otherwise; and `matchedKeywords` records every
matched keyword across all tiers in table order. -/
theorem analyzePriority_spec (text : String) :
    (analyzePriority text).level
      = (if anyMatch text urgentKeywords then PriorityLevel.urgent
         else if anyMatch text highKeywords then PriorityLevel.high
         else if anyMatch text lowKeywords then PriorityLevel.low
         else PriorityLevel.normal)
    ∧ (analyzePriority text).score
      = (if anyMatch text urgentKeywords then 3
         else if anyMatch text highKeywords then 2
         else if anyMatch text lowKeywords then 1
         else 0)
    ∧ (analyzePriority text).confidence
      = (if anyMatch text (urgentKeywords ++ highKeywords ++ lowKeywords)
         then min (((analyzePriority text).score : ℚ) / 3) 1
         else 1 / 2)
    ∧ (analyzePriority text).matchedKeywords
      = matchedIn text (urgentKeywords ++ highKeywords ++ lowKeywords) :=
  analyzePriority_core text

/-! ## No-match lemmas (towards C4) -/

lemma foldl_skip_all {α : Type} (text : String) (f : α → String → α)
    (hf : ∀ a kw, includes text kw = false → f a kw = a) :
    ∀ (kws : List String), (∀ kw ∈ kws, includes text kw = false) →
      ∀ (a : α), kws.foldl f a = a := by
  intro kws
  induction kws with
  | nil => intro _ a; rfl
  | cons kw rest ih =>
    intro h a
    rw [List.foldl_cons, hf a kw (h kw (by simp)), ih (fun k hk => h k (by simp [hk]))]

lemma categoryScan_no_match (text : String) (w : Nat) (kws : List String)
    (h : ∀ kw ∈ kws, includes text kw = false) :
    categoryScan text w kws = (0, []) := by
  unfold categoryScan
  exact foldl_skip_all text _ (fun a kw hkw => by simp [hkw]) kws h _

lemma categorizeContent_no_match (text : String)
    (h : ∀ e ∈ categoryKeywords, ∀ kw ∈ e.2.1, includes text kw = false) :
    categorizeContent text = [] := by
  unfold categorizeContent
  have he : categoryKeywords.filterMap (fun entry =>
      let s := categoryScan text entry.2.2 entry.2.1
      if 0 < s.1 then
        some (⟨entry.1, s.1, s.2, min ((s.1 : ℚ) / 5) 1⟩ : CategoryAnalysis)
      else none) = [] := by
    rw [List.filterMap_eq_nil_iff]
    intro e he
    simp [categoryScan_no_match text e.2.2 e.2.1 (h e he)]
  rw [he]
  rfl

lemma analyzeProducts_no_match (text : String)
    (h : ∀ e ∈ productKeywords, ∀ kw ∈ e.2, includes text kw = false) :
    analyzeProducts text = [] := by
  unfold analyzeProducts
  have he : productKeywords.filterMap (fun entry =>
      let matched := entry.2.filter (fun kw => includes text kw)
      if matched ≠ [] then
        some (⟨entry.1, matched, min ((matched.length : ℚ) / (entry.2.length : ℚ)) 1⟩ :
          ProductAnalysis)
      else none) = [] := by
    rw [List.filterMap_eq_nil_iff]
    intro e he
    have : e.2.filter (fun kw => includes text kw) = [] := by
      rw [List.filter_eq_nil_iff]
      intro kw hk
      simp [h e he kw hk]
    simp [this]
  rw [he]
  rfl

lemma anyMatch_false_of (text : String) (kws : List String)
    (h : ∀ kw ∈ kws, includes text kw = false) :
    anyMatch text kws = false := by
  simp only [anyMatch, List.any_eq_false]
  intro kw hk
  simp [h kw hk]

lemma matchedIn_nil_of (text : String) (kws : List String)
    (h : ∀ kw ∈ kws, includes text kw = false) :
    matchedIn text kws = [] := by
  rw [matchedIn, List.filter_eq_nil_iff]
  intro kw hk
  simp [h kw hk]

/-! ## Field lemmas for `analyzeText` and `analyzeTicket` -/

lemma analyzeText_categories (text : String) :
    (analyzeText text).categories = categorizeContent text := rfl

lemma analyzeText_priority (text : String) :
    (analyzeText text).priority = analyzePriority text := rfl

lemma analyzeText_sentiment (text : String) :
    (analyzeText text).sentiment = analyzeSentiment text := rfl

lemma analyzeText_products (text : String) :
    (analyzeText text).products = analyzeProducts text := rfl

lemma analyzeText_confidence (text : String) :
    (analyzeText text).confidence = calculateConfidence (analyzeText text) text := rfl

/-- Core consequences of a total keyword miss, shared by several results:
all dimension defaults, plus the exact priority and sentiment confidences. -/
lemma noMatch_core (text : String)
    (h : ∀ kw ∈ ruleKeywords, includes text kw = false) :
    (analyzeText text).priority.level = PriorityLevel.normal
    ∧ (analyzeText text).sentiment.sentiment = SentimentLabel.neutral
    ∧ (analyzeText text).categories = []
    ∧ (analyzeText text).products = []
    ∧ (analyzeText text).confidence
        = (1 / 2 + min ((text.length : ℚ) / 500) 1) / 3
    ∧ (analyzeText text).priority.confidence = 1 / 2
    ∧ (analyzeText text).sentiment.confidence = 0 := by
  have hmem : ∀ kw : String,
      (kw ∈ categoryKeywords.flatMap (fun e => e.2.1) ∨ kw ∈ urgentKeywords ∨
       kw ∈ highKeywords ∨ kw ∈ lowKeywords ∨ kw ∈ positiveKeywords ∨
       kw ∈ negativeKeywords ∨ kw ∈ productKeywords.flatMap (fun e => e.2)) →
      includes text kw = false := by
    intro kw hk
    apply h
    simp only [ruleKeywords, List.mem_append]
    tauto
  have hcat : ∀ e ∈ categoryKeywords, ∀ kw ∈ e.2.1, includes text kw = false :=
    fun e he kw hkw => hmem kw (Or.inl (List.mem_flatMap.mpr ⟨e, he, hkw⟩))
  have hprod : ∀ e ∈ productKeywords, ∀ kw ∈ e.2, includes text kw = false :=
    fun e he kw hkw => hmem kw (Or.inr (Or.inr (Or.inr (Or.inr (Or.inr (Or.inr
      (List.mem_flatMap.mpr ⟨e, he, hkw⟩)))))))
  have hu := anyMatch_false_of text urgentKeywords
    (fun kw hk => hmem kw (Or.inr (Or.inl hk)))
  have hhi := anyMatch_false_of text highKeywords
    (fun kw hk => hmem kw (Or.inr (Or.inr (Or.inl hk))))
  have hlo := anyMatch_false_of text lowKeywords
    (fun kw hk => hmem kw (Or.inr (Or.inr (Or.inr (Or.inl hk)))))
  have hpos := matchedIn_nil_of text positiveKeywords
    (fun kw hk => hmem kw (Or.inr (Or.inr (Or.inr (Or.inr (Or.inl hk))))))
  have hneg := matchedIn_nil_of text negativeKeywords
    (fun kw hk => hmem kw (Or.inr (Or.inr (Or.inr (Or.inr (Or.inr (Or.inl hk)))))))
  have hc := categorizeContent_no_match text hcat
  have hpl := analyzeProducts_no_match text hprod
  obtain ⟨l1, s1, c1, m1⟩ := analyzePriority_core text
  obtain ⟨l2, s2, c2, p2, n2⟩ := analyzeSentiment_core text
  simp only [hu, hhi, hlo, Bool.false_eq_true, if_false] at l1
  simp only [anyMatch_append, hu, hhi, hlo, Bool.or_self, Bool.false_eq_true,
    if_false] at c1
  simp only [hpos, hneg, List.length_nil, Nat.lt_irrefl, if_false] at l2
  simp only [hpos, hneg, List.length_nil] at c2
  norm_num at c2
  refine ⟨?_, ?_, ?_, ?_, ?_, ?_, ?_⟩
  · rw [analyzeText_priority, l1]
  · rw [analyzeText_sentiment, l2]
  · rw [analyzeText_categories, hc]
  · rw [analyzeText_products, hpl]
  · rw [analyzeText_confidence, calculateConfidence]
    simp only [analyzeText_categories, hc, List.isEmpty_nil, if_true,
      analyzeText_priority, analyzeText_sentiment, c1, c2]
    ring
  · rw [analyzeText_priority, c1]
  · rw [analyzeText_sentiment, c2]

set_option maxRecDepth 16384 in
/-- No rule keyword occurs in the empty text. -/
lemma no_match_empty : ∀ kw ∈ ruleKeywords, includes "" kw = false := by decide

set_option maxRecDepth 16384 in
/-- No rule keyword occurs in the text "zzz". -/
lemma no_match_zzz : ∀ kw ∈ ruleKeywords, includes "zzz" kw = false := by decide

/-- The length factor of the empty text is `0`. -/
lemma lengthFactor_empty : min ((("" : String).length : ℚ) / 500) 1 = 0 := by
  have h0 : ("" : String).length = 0 := rfl
  rw [h0]
  norm_num

/-- C4 (amended): on a text in which no keyword of any dimension occurs, the
priority is `normal`, the sentiment is `neutral`, the category and product
lists are empty, and the overall confidence is `(0.5 + lengthFactor) / 3`
(the no-signal priority confidence of `0.5` still enters the mean, so the
confidence is not bounded by the length factor alone). -/
theorem analyzeText_no_match_defaults (text : String)
    (h : ∀ kw ∈ ruleKeywords, includes text kw = false) :
    (analyzeText text).priority.level = PriorityLevel.normal
    ∧ (analyzeText text).sentiment.sentiment = SentimentLabel.neutral
    ∧ (analyzeText text).categories = []
    ∧ (analyzeText text).products = []
    ∧ (analyzeText text).confidence
        = (1 / 2 + min ((text.length : ℚ) / 500) 1) / 3 := by
  obtain ⟨a, b, c, d, e, -, -⟩ := noMatch_core text h
  exact ⟨a, b, c, d, e⟩

/-- C4 witness: the text "zzz" matches no keyword, and its analysis takes
the no-match defaults. -/
theorem analyzeText_no_match_defaults_witness :
    (analyzeText "zzz").priority.level = PriorityLevel.normal
    ∧ (analyzeText "zzz").sentiment.sentiment = SentimentLabel.neutral
    ∧ (analyzeText "zzz").categories = []
    ∧ (analyzeText "zzz").products = []
    ∧ (analyzeText "zzz").confidence
        = (1 / 2 + min ((("zzz" : String).length : ℚ) / 500) 1) / 3 :=
  analyzeText_no_match_defaults "zzz" no_match_zzz

/-- C4 counterexample: the empty text has zero keyword matches, yet its
overall confidence `1/6` strictly exceeds the length factor `0`, so
"overall confidence ≤ the length-factor term alone" fails. -/
theorem analyzeText_no_match_conf_exceeds_length_factor :
    (∀ kw ∈ ruleKeywords, includes "" kw = false)
    ∧ (analyzeText "").confidence = 1 / 6
    ∧ ¬ ((analyzeText "").confidence ≤ min ((("" : String).length : ℚ) / 500) 1) := by
  have c := noMatch_core "" no_match_empty
  have hconf : (analyzeText "").confidence = 1 / 6 := by
    rw [c.2.2.2.2.1, lengthFactor_empty]
    norm_num
  refine ⟨no_match_empty, hconf, ?_⟩
  rw [hconf, lengthFactor_empty]
  norm_num

/-- C1 (amended): the overall confidence of `analyzeTicket` is the
unweighted mean of the top category's confidence, the priority confidence,
the sentiment confidence and the length factor when a category matched;
when no category matched, the category term is omitted entirely and the
mean is over the remaining three terms. -/
theorem analyzeTicket_confidence_mean (t : ZendeskTicket) :
    ((analyzeTicket t).categories = [] →
      (analyzeTicket t).confidence
        = ((analyzeTicket t).priority.confidence + (analyzeTicket t).sentiment.confidence
            + min (((lowerStr (effectiveText t)).length : ℚ) / 500) 1) / 3)
    ∧ (∀ c cs, (analyzeTicket t).categories = c :: cs →
      (analyzeTicket t).confidence
        = (c.confidence + (analyzeTicket t).priority.confidence
            + (analyzeTicket t).sentiment.confidence
            + min (((lowerStr (effectiveText t)).length : ℚ) / 500) 1) / 4) := by
  have hconf : (analyzeTicket t).confidence
      = calculateConfidence (analyzeTicket t) (lowerStr (effectiveText t)) := rfl
  constructor
  · intro hE
    rw [hconf, calculateConfidence]
    simp only [hE, List.isEmpty_nil, if_true]
  · intro c cs hE
    rw [hconf, calculateConfidence]
    simp only [hE, List.isEmpty_cons, List.head?_cons, Bool.false_eq_true, if_false]
    rfl

/-- C1 witness: on a ticket with empty text no category matches and the
overall confidence is the three-term mean. -/
theorem analyzeTicket_confidence_mean_witness :
    (analyzeTicket ⟨0, "", "", "", []⟩).confidence
      = ((analyzeTicket ⟨0, "", "", "", []⟩).priority.confidence
          + (analyzeTicket ⟨0, "", "", "", []⟩).sentiment.confidence
          + min (((lowerStr (effectiveText ⟨0, "", "", "", []⟩)).length : ℚ) / 500) 1) / 3 :=
  (analyzeTicket_confidence_mean ⟨0, "", "", "", []⟩).1
    ((noMatch_core "" no_match_empty).2.2.1)

/-- C1 counterexample: for the empty-text ticket no category matches, and
the overall confidence `1/6` differs from the four-term mean `1/8` that the
claim prescribes (category term counted as 0). -/
theorem analyzeTicket_confidence_not_four_term_mean :
    (analyzeTicket ⟨0, "", "", "", []⟩).categories = []
    ∧ (analyzeTicket ⟨0, "", "", "", []⟩).confidence
        ≠ (0 + (analyzeTicket ⟨0, "", "", "", []⟩).priority.confidence
            + (analyzeTicket ⟨0, "", "", "", []⟩).sentiment.confidence
            + min (((lowerStr (effectiveText ⟨0, "", "", "", []⟩)).length : ℚ) / 500) 1) / 4 := by
  have key : analyzeTicket ⟨0, "", "", "", []⟩ = analyzeText "" := rfl
  have klen : lowerStr (effectiveText ⟨0, "", "", "", []⟩) = "" := rfl
  have c := noMatch_core "" no_match_empty
  have hconf : (analyzeText "").confidence = 1 / 6 := by
    rw [c.2.2.2.2.1, lengthFactor_empty]
    norm_num
  rw [key, klen]
  refine ⟨c.2.2.1, ?_⟩
  rw [hconf, c.2.2.2.2.2.1, c.2.2.2.2.2.2, lengthFactor_empty]
  norm_num

/-! ## Tag-policy lemmas (towards C5) -/

lemma dedupFirst_cons (a : String) (l : List String) :
    dedupFirst (a :: l) = a :: dedupFirst (l.filter (fun b => b ≠ a)) := by
  rw [dedupFirst]

lemma mem_dedupFirst (a : String) (l : List String) :
    a ∈ dedupFirst l ↔ a ∈ l := by
  induction l using dedupFirst.induct with
  | case1 => simp [dedupFirst]
  | case2 b l ih =>
    rw [dedupFirst_cons]
    by_cases hab : a = b
    · simp [hab]
    · simp only [List.mem_cons, hab, false_or]
      rw [ih]
      simp [List.mem_filter, hab]

lemma dedupFirst_nodup (l : List String) : (dedupFirst l).Nodup := by
  induction l using dedupFirst.induct with
  | case1 => simp [dedupFirst]
  | case2 b l ih =>
    rw [dedupFirst_cons]
    refine List.Nodup.cons ?_ ih
    rw [mem_dedupFirst]
    simp [List.mem_filter]

/-- Tag policy modelled from the spec wording (§4.2, seven rules): the
processed marker first; then the gated `category-`, `priority-`,
`sentiment-` and `product-` tags; then the secondary tag of every category
with confidence above 0.6 from the fixed lookup table; finally
de-duplicated keeping first occurrences. -/
def generateTagsPolicy (a : TicketAnalysis) : List String :=
  dedupFirst
    (["auto-processed"]
      ++ (match a.categories with
          | [] => []
          | top :: _ =>
            if (3 : ℚ) / 10 < top.confidence then ["category-" ++ top.category] else [])
      ++ (if a.priority.level ≠ PriorityLevel.normal ∧ (1 : ℚ) / 2 < a.priority.confidence
          then ["priority-" ++ a.priority.level.label] else [])
      ++ (if a.sentiment.sentiment ≠ SentimentLabel.neutral ∧ (2 : ℚ) / 5 < a.sentiment.confidence
          then ["sentiment-" ++ a.sentiment.sentiment.label] else [])
      ++ (match a.products with
          | [] => []
          | top :: _ =>
            if (3 : ℚ) / 10 < top.confidence then ["product-" ++ top.product] else [])
      ++ a.categories.filterMap (fun c =>
          if (3 : ℚ) / 5 < c.confidence then secondaryTag c.category else none))

/-- C5: `generateTags` returns exactly the list prescribed by the seven
policy rules of the spec, the marker tag always first, de-duplicated while
preserving first-occurrence order. -/
theorem generateTags_policy (a : TicketAnalysis) :
    generateTags a = generateTagsPolicy a
    ∧ (generateTags a).head? = some "auto-processed"
    ∧ (generateTags a).Nodup := by
  have he : generateTags a = generateTagsPolicy a := by
    simp only [generateTags, generateTagsPolicy, List.append_assoc]
  refine ⟨he, ?_, ?_⟩
  · rw [he]
    simp only [generateTagsPolicy, List.singleton_append, List.cons_append, dedupFirst_cons,
      List.head?_cons]
  · rw [he]
    exact dedupFirst_nodup _

/-! ## Tagger results (C2, C7, C9, C10) -/

/-- C10: `filterTags` keeps exactly the suggested tags that are not already
on the ticket and are not blank (empty or whitespace-only), so a blank tag
is never among the tags to apply. -/
theorem filterTags_mem_iff (suggested current : List String) (tag : String) :
    tag ∈ filterTags suggested current
      ↔ tag ∈ suggested ∧ tag ∉ current ∧ isBlank tag = false := by
  simp [filterTags, List.mem_filter, and_assoc]

/-- C2: when the ticket already carries every suggested tag and the
confidence meets the threshold, `applyTags` returns the skipped
"no new tags" outcome and issues no remote write. -/
theorem applyTags_reapply_skips (cfg : AutomationConfig) (client : Client)
    (ticket : ZendeskTicket) (analysis : TicketAnalysis)
    (hsub : ∀ tag ∈ analysis.suggestedTags, tag ∈ ticket.tags)
    (hconf : cfg.minConfidence ≤ analysis.confidence) :
    applyTags cfg client ticket analysis
      = (⟨ticket.id, TagStatus.skipped, analysis.confidence,
          some analysis.suggestedTags, some TagReason.noNewTags⟩, []) := by
  have hf : filterTags analysis.suggestedTags ticket.tags = [] := by
    rw [filterTags, List.filter_eq_nil_iff]
    intro tag ht
    simp only [Bool.not_eq_true]
    simp
    intro hn
    exact absurd (hsub tag ht) hn
  simp only [applyTags, hf]
  rw [if_neg (not_lt.mpr hconf)]
  simp

/-- The always-succeeding injected write collaborator, used in witnesses. -/
def okClient : Client := fun _ _ => Except.ok ()

/-- A minimal concrete ticket for witnesses. -/
def sampleTicket : ZendeskTicket := ⟨1, "s", "", "", []⟩

/-- A concrete analysis with confidence 0 (below any positive threshold). -/
def lowAnalysis : TicketAnalysis :=
  ⟨1, [], ⟨PriorityLevel.normal, 0, [], 1 / 2⟩,
    ⟨SentimentLabel.neutral, 0, [], [], 0⟩, [], ["auto-processed"], 0⟩

/-- A concrete analysis with confidence 1/2 suggesting the marker tag. -/
def markerAnalysis : TicketAnalysis :=
  ⟨1, [], ⟨PriorityLevel.normal, 0, [], 1 / 2⟩,
    ⟨SentimentLabel.neutral, 0, [], [], 0⟩, [], ["auto-processed"], 1 / 2⟩

/-- C2 witness: re-applying the marker analysis to a ticket that already
has the marker tag is skipped with "no new tags" and writes nothing. -/
theorem applyTags_reapply_skips_witness :
    applyTags ⟨1 / 2, false⟩ okClient ⟨1, "s", "", "", ["auto-processed"]⟩ markerAnalysis
      = (⟨1, TagStatus.skipped, 1 / 2, some ["auto-processed"],
          some TagReason.noNewTags⟩, []) :=
  applyTags_reapply_skips _ _ _ _ (by decide) (by norm_num [markerAnalysis])

/-- Is this outcome the below-threshold skip? -/
def isBelowThresholdSkip (r : TaggingResult) : Bool :=
  match r.reason with
  | some (TagReason.belowThreshold _ _) => true
  | _ => false

/-- C7: `applyTags` takes the below-threshold skip path exactly when the
confidence is strictly below `minConfidence` (so equality proceeds to the
apply path), and that path issues no remote write. -/
theorem applyTags_threshold_boundary (cfg : AutomationConfig) (client : Client)
    (ticket : ZendeskTicket) (analysis : TicketAnalysis) :
    (isBelowThresholdSkip (applyTags cfg client ticket analysis).1 = true
      ↔ analysis.confidence < cfg.minConfidence)
    ∧ (analysis.confidence < cfg.minConfidence →
        applyTags cfg client ticket analysis
          = (⟨ticket.id, TagStatus.skipped, analysis.confidence, none,
              some (TagReason.belowThreshold analysis.confidence cfg.minConfidence)⟩, [])) := by
  by_cases hlt : analysis.confidence < cfg.minConfidence
  · refine ⟨iff_of_true ?_ hlt, fun _ => ?_⟩
    · simp [applyTags, hlt, isBelowThresholdSkip]
    · simp [applyTags, hlt]
  · refine ⟨iff_of_false ?_ hlt, fun h => absurd h hlt⟩
    simp only [applyTags, if_neg hlt]
    split
    · simp [isBelowThresholdSkip]
    · split
      · simp [isBelowThresholdSkip]
      · split
        · simp [isBelowThresholdSkip]
        · simp [isBelowThresholdSkip]

/-- C7 witness: confidence 0 against threshold 7/10 takes the
below-threshold skip with no write. -/
theorem applyTags_threshold_boundary_witness :
    isBelowThresholdSkip (applyTags ⟨7 / 10, false⟩ okClient sampleTicket lowAnalysis).1 = true
    ∧ applyTags ⟨7 / 10, false⟩ okClient sampleTicket lowAnalysis
        = (⟨1, TagStatus.skipped, 0, none,
            some (TagReason.belowThreshold 0 (7 / 10))⟩, []) := by
  have h := applyTags_threshold_boundary ⟨7 / 10, false⟩ okClient sampleTicket lowAnalysis
  exact ⟨h.1.mpr (by norm_num [lowAnalysis]), h.2 (by norm_num [lowAnalysis])⟩

/-- C9: with dry-run enabled, confidence meeting the threshold and a
non-empty set of new tags, `applyTags` reports exactly the filtered
`tagsToApply` with the dry-run status and issues no remote write. -/
theorem applyTags_dry_run_no_write (cfg : AutomationConfig) (client : Client)
    (ticket : ZendeskTicket) (analysis : TicketAnalysis)
    (hdry : cfg.dryRun = true)
    (hconf : cfg.minConfidence ≤ analysis.confidence)
    (hnew : filterTags analysis.suggestedTags ticket.tags ≠ []) :
    applyTags cfg client ticket analysis
      = (⟨ticket.id, TagStatus.dryRun, analysis.confidence,
          some (filterTags analysis.suggestedTags ticket.tags),
          some (TagReason.dryRunWould
            (filterTags analysis.suggestedTags ticket.tags).length)⟩, []) := by
  simp only [applyTags]
  rw [if_neg (not_lt.mpr hconf), if_neg (by simp [List.isEmpty_iff, hnew]), if_pos hdry]

/-- C9 witness: dry-run with a new marker tag reports it and writes
nothing. -/
theorem applyTags_dry_run_no_write_witness :
    applyTags ⟨1 / 2, true⟩ okClient sampleTicket markerAnalysis
      = (⟨1, TagStatus.dryRun, 1 / 2,
          some (filterTags markerAnalysis.suggestedTags sampleTicket.tags),
          some (TagReason.dryRunWould
            (filterTags markerAnalysis.suggestedTags sampleTicket.tags).length)⟩, []) :=
  applyTags_dry_run_no_write _ _ _ _ rfl (by norm_num [markerAnalysis]) (by decide)

/-! ## Batch results (C6) -/

/-- The outcome an analysis contributes to the details list, when its
ticket is found. -/
def batchOutcome (cfg : AutomationConfig) (client : Client)
    (tickets : List ZendeskTicket) (a : TicketAnalysis) : Option TaggingResult :=
  (lookupTicket tickets a.ticketId).map (fun t => (applyTags cfg client t a).1)

lemma batchStep_miss (cfg : AutomationConfig) (client : Client)
    (tickets : List ZendeskTicket) (acc : BatchAcc) (a : TicketAnalysis)
    (hl : lookupTicket tickets a.ticketId = none) :
    batchStep cfg client tickets acc a = { acc with errors := acc.errors + 1 } := by
  simp [batchStep, hl]

lemma batchStep_hit (cfg : AutomationConfig) (client : Client)
    (tickets : List ZendeskTicket) (acc : BatchAcc) (a : TicketAnalysis)
    (t : ZendeskTicket) (hl : lookupTicket tickets a.ticketId = some t) :
    (batchStep cfg client tickets acc a).details
        = acc.details ++ [(applyTags cfg client t a).1]
    ∧ (batchStep cfg client tickets acc a).errors
        = acc.errors
          + (if (applyTags cfg client t a).1.status = TagStatus.error then 1 else 0) := by
  refine ⟨by simp [batchStep, hl], ?_⟩
  cases hs : (applyTags cfg client t a).1.status <;> simp [batchStep, hl, hs]

lemma batchFold_spec (cfg : AutomationConfig) (client : Client)
    (tickets : List ZendeskTicket) :
    ∀ (analyses : List TicketAnalysis) (acc : BatchAcc),
      (analyses.foldl (batchStep cfg client tickets) acc).details
        = acc.details ++ analyses.filterMap (batchOutcome cfg client tickets)
      ∧ (analyses.foldl (batchStep cfg client tickets) acc).errors
        = acc.errors
          + (analyses.filter (fun a => (lookupTicket tickets a.ticketId).isNone)).length
          + ((analyses.filterMap (batchOutcome cfg client tickets)).filter
              (fun r => r.status = TagStatus.error)).length := by
  intro analyses
  induction analyses with
  | nil => intro acc; simp
  | cons a as ih =>
    intro acc
    rw [List.foldl_cons]
    cases hl : lookupTicket tickets a.ticketId with
    | none =>
      obtain ⟨d, e⟩ := ih { acc with errors := acc.errors + 1 }
      rw [batchStep_miss cfg client tickets acc a hl] at *
      refine ⟨?_, ?_⟩
      · rw [d]
        simp [List.filterMap_cons, batchOutcome, hl]
      · rw [e]
        simp only [List.filter_cons, List.filterMap_cons, batchOutcome, hl,
          Option.map_none, Option.isNone_none]
        simp
        omega
    | some t =>
      obtain ⟨hd, he⟩ := batchStep_hit cfg client tickets acc a t hl
      obtain ⟨d, e⟩ := ih (batchStep cfg client tickets acc a)
      refine ⟨?_, ?_⟩
      · rw [d, hd]
        simp [List.filterMap_cons, batchOutcome, hl, List.append_assoc]
      · rw [e, he]
        simp only [List.filter_cons, List.filterMap_cons, batchOutcome, hl,
          Option.map_some, Option.isNone_some]
        cases hs : (applyTags cfg client t a).1.status <;> simp [hs]
        all_goals omega

/-- C6 (amended): `batchApplyTags` returns one outcome per analysis whose
ticket is found, in input order (so one item's failure never blocks later
items, and exactly the failing items yield error outcomes); a lookup miss
is counted in the errors counter without throwing and without aborting,
but contributes no details entry. -/
theorem batchApplyTags_outcomes (cfg : AutomationConfig) (client : Client)
    (analyses : List TicketAnalysis) (tickets : List ZendeskTicket) :
    (batchApplyTags cfg client analyses tickets).1.total = analyses.length
    ∧ (batchApplyTags cfg client analyses tickets).1.details
        = analyses.filterMap (batchOutcome cfg client tickets)
    ∧ (batchApplyTags cfg client analyses tickets).1.errors
        = (analyses.filter (fun a => (lookupTicket tickets a.ticketId).isNone)).length
          + (((batchApplyTags cfg client analyses tickets).1.details).filter
              (fun r => r.status = TagStatus.error)).length := by
  obtain ⟨d, e⟩ := batchFold_spec cfg client tickets analyses ⟨0, 0, 0, [], []⟩
  have hdet : (batchApplyTags cfg client analyses tickets).1.details
      = analyses.filterMap (batchOutcome cfg client tickets) := by
    rw [show (batchApplyTags cfg client analyses tickets).1.details
        = (analyses.foldl (batchStep cfg client tickets) ⟨0, 0, 0, [], []⟩).details from rfl,
      d]
    simp
  refine ⟨rfl, hdet, ?_⟩
  rw [hdet]
  rw [show (batchApplyTags cfg client analyses tickets).1.errors
      = (analyses.foldl (batchStep cfg client tickets) ⟨0, 0, 0, [], []⟩).errors from rfl,
    e]
  simp

/-- A concrete analysis whose ticket id `1` is deliberately absent from the
ticket list, for the C6 counterexample. -/
def missAnalysis : TicketAnalysis :=
  ⟨1, [], ⟨PriorityLevel.normal, 0, [], 1 / 2⟩,
    ⟨SentimentLabel.neutral, 0, [], [], 0⟩, [], ["auto-processed"], 0⟩

/-- C6 counterexample: one analysis whose ticket is missing from the
ticket list yields an empty details list (no per-ticket outcome), while
total is 1 and the error counter is 1 — refuting "one outcome for every
input analysis". -/
theorem batchApplyTags_lookup_miss_drops_outcome :
    (batchApplyTags ⟨7 / 10, false⟩ okClient [missAnalysis] []).1.total = 1
    ∧ (batchApplyTags ⟨7 / 10, false⟩ okClient [missAnalysis] []).1.errors = 1
    ∧ (batchApplyTags ⟨7 / 10, false⟩ okClient [missAnalysis] []).1.details = []
    ∧ (batchApplyTags ⟨7 / 10, false⟩ okClient [missAnalysis] []).1.details.length
        ≠ [missAnalysis].length := by
  refine ⟨rfl, rfl, rfl, ?_⟩
  rw [show (batchApplyTags ⟨7 / 10, false⟩ okClient [missAnalysis] []).1.details
      = [] from rfl]
  simp

end Zendesk
